import Mathlib

/-!
Verification of the process-lifecycle orchestration of `observatorium`
(`src/main.go`): the signal-watcher actor, the server actor registration,
the run-group orchestrator, configuration validation and the exit paths of
`main`.  Go channels, the relevant standard-library parsers and the
sequential structure of `main` are shallowly embedded as executable Lean
definitions; the orchestrator (`run.Group`, an external library whose source
is not part of the repository) is modelled from the specification.
-/

/-- The OS signals relevant to `main.go`.  `SIGINT` is Go's `os.Interrupt`.
The extra constructors stand for signals the program does not subscribe to. -/
inductive GoSignal
  | SIGINT
  | SIGTERM
  | SIGHUP
  | SIGQUIT
deriving DecidableEq

/-- A Go channel of `os.Signal` values, as used at `src/main.go:125`
(`sig := make(chan os.Signal, 1)`): a buffer of pending values plus a
closed flag. -/
structure SigChan where
  buf : List GoSignal
  isClosed : Bool
deriving DecidableEq

/-- A Go runtime panic relevant to this model. -/
inductive GoPanic
  | closeOfClosedChannel
deriving DecidableEq

/-- Go's `close(ch)`: marks the channel closed; closing an already closed
channel panics (Go language specification). -/
def chanClose (c : SigChan) : Except GoPanic SigChan :=
  if c.isClosed then .error GoPanic.closeOfClosedChannel
  else .ok { c with isClosed := true }

/-- Go's channel receive `<-ch` on a signal channel: yields a buffered value
if one is pending, yields the zero value (`none`) immediately if the channel
is closed and empty, and blocks (result `none`) otherwise. -/
def chanRecv (c : SigChan) : Option (Option GoSignal × SigChan) :=
  match c.buf with
  | s :: rest => some (some s, { c with buf := rest })
  | [] => if c.isClosed then some (none, c) else none

/-- The signal-watcher actor's interrupt function, `src/main.go:130-133`:
it logs "caught interrupt" (I/O, not tracked here) and then does
`close(sig)` on the watcher's signal channel. -/
def signalWatcherInterrupt (c : SigChan) : Except GoPanic SigChan :=
  chanClose c

/-- One observation step of the signal-watcher actor's run function,
`src/main.go:126-129`: after `signal.Notify`, it evaluates `<-sig` and
returns `nil`.  Result `none` means the receive blocks (run has not
returned); `some r` means run returned the error `r` (`none` = Go `nil`). -/
def signalWatcherRunStep (c : SigChan) : Option (Option String) :=
  match chanRecv c with
  | some _ => some none
  | none => none

/-- Setup operations of the signal watcher, in program order. -/
inductive SigSetupOp
  | mkChan (capacity : Nat)
  | notify (signals : List GoSignal)
  | recvWait
deriving DecidableEq

/-- The signal watcher's setup sequence, `src/main.go:125-128`:
`sig := make(chan os.Signal, 1)`, then inside run
`signal.Notify(sig, os.Interrupt, syscall.SIGTERM)`, then `<-sig`. -/
def signalWatcherSetup : List SigSetupOp :=
  [SigSetupOp.mkChan 1,
   SigSetupOp.notify [GoSignal.SIGINT, GoSignal.SIGTERM],
   SigSetupOp.recvWait]

/-- Characters Go's `net/url` accepts inside a URI scheme
(first character must additionally be a letter). -/
def isSchemeChar (c : Char) : Bool :=
  c.isAlphanum || c == '+' || c == '-' || c == '.'

/-- Splits a character list at the first `"://"`, returning the part before
and after it; `none` if there is no `"://"`. -/
def schemeSplit : List Char → Option (List Char × List Char)
  | [] => none
  | ':' :: '/' :: '/' :: rest => some ([], rest)
  | c :: rest =>
    match schemeSplit rest with
    | some (pre, post) => some (c :: pre, post)
    | none => none

/-- Model of Go's `url.ParseRequestURI`, restricted to the behaviour
`main.go` relies on (Go standard library, external to the repository):
the empty string is an error ("empty url"); an absolute path (leading `/`)
or a URL with a well-formed scheme followed by `://` is accepted; anything
else is an error.  The parsed URL structure itself is irrelevant to the
claims and is returned as the raw character list. -/
def parseRequestURIChars : List Char → Except String (List Char)
  | [] => .error "empty url"
  | '/' :: rest => .ok ('/' :: rest)
  | cs =>
    match schemeSplit cs with
    | some (pre, _) =>
      match pre with
      | [] => .error "missing protocol scheme"
      | c0 :: crest =>
        if c0.isAlpha && crest.all isSchemeChar then .ok cs
        else .error "invalid URI for request"
    | none => .error "invalid URI for request"

/-- `url.ParseRequestURI` on a Lean `String`. -/
def parseRequestURI (s : String) : Except String (List Char) :=
  parseRequestURIChars s.data

/-- Nanoseconds per duration unit, as in Go's `time.ParseDuration`. -/
def durUnitNanos (u : List Char) : Option Nat :=
  if u = ['n', 's'] then some 1
  else if u = ['u', 's'] then some 1000
  else if u = ['m', 's'] then some 1000000
  else if u = ['s'] then some 1000000000
  else if u = ['m'] then some 60000000000
  else if u = ['h'] then some 3600000000000
  else none

/-- Take the leading run of decimal digits. -/
def takeDigits : List Char → List Char × List Char
  | [] => ([], [])
  | c :: cs =>
    if c.isDigit then
      match takeDigits cs with
      | (ds, r) => (c :: ds, r)
    else ([], c :: cs)

/-- Take the leading run of non-digit characters (a candidate unit). -/
def takeUnit : List Char → List Char × List Char
  | [] => ([], [])
  | c :: cs =>
    if c.isDigit then ([], c :: cs)
    else
      match takeUnit cs with
      | (us, r) => (c :: us, r)

/-- Decimal digits to a natural number. -/
def digitsToNat (ds : List Char) : Nat :=
  ds.foldl (fun a c => a * 10 + (c.toNat - 48)) 0

/-- Parses a nonempty sequence of `<digits><unit>` duration terms, summing
their values in nanoseconds.  `fuel` bounds the recursion (the input length
suffices). -/
def parseDurTerms : Nat → List Char → Option Nat
  | 0, _ => none
  | _ + 1, [] => none
  | fuel + 1, cs =>
    match takeDigits cs with
    | ([], _) => none
    | (ds, r1) =>
      match takeUnit r1 with
      | (us, r2) =>
        match durUnitNanos us with
        | none => none
        | some mult =>
          match r2 with
          | [] => some (digitsToNat ds * mult)
          | _ =>
            match parseDurTerms fuel r2 with
            | none => none
            | some restVal => some (digitsToNat ds * mult + restVal)

/-- Model of Go's `time.ParseDuration` (Go standard library, external to the
repository), restricted to the forms `main.go` depends on: `"0"` alone, or a
nonempty sequence of integer-and-unit terms with units among
ns/us/ms/s/m/h; a bare number without a unit, the empty string, or any
non-conforming string is an error.  (Signs and fractional parts of the full
Go grammar are not needed by any claim and are omitted.) -/
def parseDuration (s : String) : Except String Nat :=
  if s = "0" then .ok 0
  else
    match parseDurTerms (s.data.length + 1) s.data with
    | some n => .ok n
    | none => .error "invalid duration"

/-- The `options` struct of `src/main.go:25-42`. -/
structure Options where
  debugMutexProfileFraction : Int
  debugBlockProfileRate : Int
  proxyBufferSizeBytes : Int
  proxyBufferCount : Int
  listen : String
  gracePeriod : String
  debugName : String
  logLevel : String
  logFormat : String
  metricsQueryEndpoint : String
  metricsWriteEndpoint : String
  traceExporter : String
  traceExporterEndpoint : String
  traceSamplerProbability : Rat
deriving DecidableEq

/-- The flag default values of `src/main.go:47-66`.  The defaults taken from
packages outside `src/` (`proxy.DefaultBufferCount`,
`proxy.DefaultBufferSizeBytes`, `internal.LogFormatLogfmt`,
`internal.ExporterJaeger`) are parameters. -/
def defaultOptions (proxyDefaultBufferCount proxyDefaultBufferSizeBytes : Int)
    (logFormatLogfmt exporterJaeger : String) : Options :=
  { debugMutexProfileFraction := 10
    debugBlockProfileRate := 10
    proxyBufferSizeBytes := proxyDefaultBufferSizeBytes
    proxyBufferCount := proxyDefaultBufferCount
    listen := ":8080"
    gracePeriod := "5s"
    debugName := "observatorium"
    logLevel := "info"
    logFormat := logFormatLogfmt
    metricsQueryEndpoint := ""
    metricsWriteEndpoint := ""
    traceExporter := exporterJaeger
    traceExporterEndpoint := exporterJaeger
    traceSamplerProbability := 1 / 10 }

/-- Options with endpoints and grace period that pass validation. -/
def validOptions : Options :=
  { defaultOptions 32 32768 "logfmt" "jaeger" with
    metricsQueryEndpoint := "http://localhost:9090"
    metricsWriteEndpoint := "http://localhost:9091" }

/-- Options whose `--metrics.query.endpoint` fails URL validation. -/
def invalidQueryOptions : Options :=
  { validOptions with metricsQueryEndpoint := "notaurl" }

/-- Options whose `--metrics.write.endpoint` fails URL validation. -/
def invalidWriteOptions : Options :=
  { validOptions with metricsWriteEndpoint := "not a url" }

/-- Options whose `--grace-period` fails duration parsing. -/
def invalidGraceOptions : Options :=
  { validOptions with gracePeriod := "five" }

/-- Observable events of `main` from the validation section onward
(`src/main.go:84-159`). -/
inductive MainEvent
  | errorLog (msg : String)
  | infoLog (msg : String)
  | constructServer
  | callRun
  | osExit (code : Nat)
  | deferredRun (name : String)
deriving DecidableEq

/-- The deferred calls registered before the validation section
(`src/main.go:77` and `src/main.go:80`), in the LIFO order Go runs them when
`main` returns normally. -/
def deferredCleanup : List MainEvent :=
  [MainEvent.deferredRun "tr.Close",
   MainEvent.deferredRun "log exiting"]

/-- The event trace of `main` from `src/main.go:84` on, given the parsed
options and the error `run.Group.Run` would return (`none` = Go `nil`).
Each `return` statement runs the registered deferred calls; `os.Exit`
terminates the process immediately, running none of them (Go `os.Exit`
semantics).  The logger/tracer construction, GOMAXPROCS tuning and metric
registration (`src/main.go:69-120`) are external collaborators with no
events relevant to the claims. -/
def mainTrace (opts : Options) (groupOutcomeErr : Option String) :
    List MainEvent :=
  match parseRequestURI opts.metricsQueryEndpoint with
  | .error _ =>
    MainEvent.errorLog "--metrics.query.endpoint is invalid" :: deferredCleanup
  | .ok _ =>
  match parseRequestURI opts.metricsWriteEndpoint with
  | .error _ =>
    MainEvent.errorLog "--metrics.write.endpoint is invalid" :: deferredCleanup
  | .ok _ =>
  match parseDuration opts.gracePeriod with
  | .error _ =>
    MainEvent.errorLog "--grace-period is invalid" :: deferredCleanup
  | .ok _ =>
    [MainEvent.constructServer,
     MainEvent.infoLog "starting observatorium",
     MainEvent.callRun] ++
    match groupOutcomeErr with
    | some _ =>
      [MainEvent.errorLog "observatorium failed", MainEvent.osExit 1]
    | none => [MainEvent.osExit 0]

/-- The process exit status produced by a `main` trace: the code of the
first `os.Exit` event, or `0` when `main` returns without calling
`os.Exit`. -/
def processExitCode : List MainEvent → Nat
  | [] => 0
  | MainEvent.osExit c :: _ => c
  | _ :: rest => processExitCode rest

/-- Whether a main event is an error-severity log line. -/
def isErrorLog : MainEvent → Bool
  | MainEvent.errorLog _ => true
  | _ => false

/-- Number of error-severity log lines in a trace. -/
def countErrorLogs (tr : List MainEvent) : Nat :=
  tr.countP isErrorLog

/-- Events observed or performed by the orchestrator during `Run`. -/
inductive GEvent
  | spawn (idx : Nat)
  | complete (idx : Nat) (err : Option String)
  | interruptCall (idx : Nat) (err : Option String)
  | ret (err : Option String)
deriving DecidableEq

/-- Modelled from the spec: the Orchestrator `Run` of the run group
(`run.Group.Run` of the oklog/run library; its source is not under `src/`,
only its caller `src/main.go:122-154` is).  Spec section 4.1: `Run` starts
every registered actor's run concurrently; when the first completion
arrives it calls `interrupt(err)` on every registered actor in registration
order, with the first completion's error; it then waits for the remaining
completions, discarding their errors, and returns the first completion's
error.  `errs` lists, in registration order, the error each actor's run
returns; `arrival` lists actor indices in completion-arrival order. -/
def groupRun (errs : List (Option String)) (arrival : List Nat) :
    List GEvent :=
  match arrival with
  | [] => [GEvent.ret none]
  | first :: rest =>
    (List.range errs.length).map GEvent.spawn
      ++ [GEvent.complete first (errs.getD first none)]
      ++ (List.range errs.length).map
          (fun i => GEvent.interruptCall i (errs.getD first none))
      ++ rest.map (fun i => GEvent.complete i (errs.getD i none))
      ++ [GEvent.ret (errs.getD first none)]

/-- The Outcome error of `Run`: the error of the first-arriving
completion. -/
def groupOutcome (errs : List (Option String)) (arrival : List Nat) :
    Option String :=
  match arrival with
  | [] => none
  | first :: _ => errs.getD first none

/-- Whether an orchestrator event is an interrupt call on actor `j`. -/
def isInterruptOf (j : Nat) : GEvent → Bool
  | GEvent.interruptCall i _ => i == j
  | _ => false

theorem dropLast_append_single {α : Type} (l : List α) (a : α) :
    (l ++ [a]).dropLast = l := by
  simp

theorem getLast?_append_single {α : Type} (l : List α) (a : α) :
    (l ++ [a]).getLast? = some a := by
  simp [List.getLast?_concat]

theorem countP_interrupt_spawn (j n : Nat) :
    List.countP (isInterruptOf j) ((List.range n).map GEvent.spawn) = 0 := by
  rw [List.countP_eq_zero]
  intro a ha
  obtain ⟨i, _, rfl⟩ := List.mem_map.mp ha
  simp [isInterruptOf]

theorem countP_interrupt_range (j n : Nat) (e : Option String) :
    List.countP (isInterruptOf j)
      ((List.range n).map (fun i => GEvent.interruptCall i e)) =
      if j < n then 1 else 0 := by
  induction n with
  | zero => simp
  | succ n ih =>
    rw [List.range_succ, List.map_append, List.countP_append, ih]
    rcases Nat.lt_trichotomy j n with h | h | h
    · have h' : j < n + 1 := by omega
      have hne : (n == j) = false := by simp; omega
      simp [h, h', List.countP_cons, isInterruptOf, hne]
    · subst h
      simp [List.countP_cons, isInterruptOf, Nat.lt_irrefl]
    · have h1 : ¬ j < n := by omega
      have h2 : ¬ j < n + 1 := by omega
      have hne : (n == j) = false := by simp; omega
      simp [h1, h2, List.countP_cons, isInterruptOf, hne]

theorem groupRun_interrupt_count (errs : List (Option String)) (first : Nat)
    (rest : List Nat) (j : Nat) (hj : j < errs.length) :
    (groupRun errs (first :: rest)).countP (isInterruptOf j) = 1 := by
  simp only [groupRun, List.countP_append]
  rw [countP_interrupt_spawn, countP_interrupt_range]
  have h0 : List.countP (isInterruptOf j)
      [GEvent.complete first (errs.getD first none)] = 0 := by
    simp [List.countP_cons, isInterruptOf]
  have h1 : List.countP (isInterruptOf j)
      (rest.map (fun i => GEvent.complete i (errs.getD i none))) = 0 := by
    rw [List.countP_eq_zero]
    intro a ha
    obtain ⟨i, _, rfl⟩ := List.mem_map.mp ha
    simp [isInterruptOf]
  have h2 : List.countP (isInterruptOf j)
      [GEvent.ret (errs.getD first none)] = 0 := by
    simp [List.countP_cons, isInterruptOf]
  rw [h0, h1, h2]
  simp [hj]

/-- C1: for every group of registered actors, the error returned by the
Orchestrator's `Run` (the Outcome) equals the error returned by whichever
actor's run completes first — it is the error carried by the final return
event of the run trace — and it is unchanged when the actors are
re-registered in any other order (`σ` renames the indices, preserving each
actor's run error) and when the run errors of all later-completing actors
are replaced arbitrarily (they are discarded). -/
theorem c1_outcome_equals_first_completion
    (errs : List (Option String)) (first : Nat) (rest : List Nat)
    (hfirst : first < errs.length)
    (σ : Nat → Nat) (errsPerm : List (Option String)) (restPerm : List Nat)
    (hσ : ∀ i, i < errs.length → errsPerm.getD (σ i) none = errs.getD i none)
    (laterErrs : List (Option String))
    (hsame : laterErrs.getD first none = errs.getD first none) :
    (groupRun errs (first :: rest)).getLast? =
      some (GEvent.ret (groupOutcome errs (first :: rest))) ∧
    groupOutcome errs (first :: rest) = errs.getD first none ∧
    groupOutcome errsPerm (σ first :: restPerm) =
      groupOutcome errs (first :: rest) ∧
    groupOutcome laterErrs (first :: rest) =
      groupOutcome errs (first :: rest) := by
  refine ⟨?_, rfl, ?_, ?_⟩
  · simp only [groupRun, groupOutcome]
    rw [getLast?_append_single]
  · show errsPerm.getD (σ first) none = errs.getD first none
    exact hσ first hfirst
  · exact hsame

/-- Witness for C1 at a concrete two-actor group completing in
reverse-registration order. -/
theorem c1_witness :
    (groupRun [some "a", some "b"] [1, 0]).getLast? =
      some (GEvent.ret (groupOutcome [some "a", some "b"] [1, 0])) ∧
    groupOutcome [some "a", some "b"] [1, 0] = some "b" ∧
    groupOutcome [some "b", some "a"] [0, 1] =
      groupOutcome [some "a", some "b"] [1, 0] ∧
    groupOutcome [none, some "b"] [1, 0] =
      groupOutcome [some "a", some "b"] [1, 0] := by
  have h := c1_outcome_equals_first_completion [some "a", some "b"] 1 [0]
    (by decide) (fun i => 1 - i) [some "b", some "a"] [1]
    (by
      intro i hi
      have h2 : i < 2 := by simpa using hi
      interval_cases i <;> rfl)
    [none, some "b"] rfl
  exact h

/-- C2: once the first actor's run completes, `Run` calls `interrupt` with
the first completion's error on every registered actor (including the one
that just completed, for any `first`, in or out of range) before `Run`
returns: the interrupt event occurs strictly before the final return
event. -/
theorem c2_interrupt_all_before_return
    (errs : List (Option String)) (first : Nat) (rest : List Nat)
    (j : Nat) (hj : j < errs.length) :
    GEvent.interruptCall j (errs.getD first none) ∈
      (groupRun errs (first :: rest)).dropLast ∧
    (groupRun errs (first :: rest)).getLast? =
      some (GEvent.ret (errs.getD first none)) := by
  constructor
  · simp only [groupRun]
    rw [dropLast_append_single]
    simp only [List.mem_append, List.mem_map, List.mem_range]
    exact Or.inl (Or.inr ⟨j, hj, rfl⟩)
  · simp only [groupRun]
    rw [getLast?_append_single]

/-- Witness for C2: a two-actor group whose second-registered actor
completes first; actor 0 is interrupted before the return. -/
theorem c2_witness :
    GEvent.interruptCall 0 (some "b") ∈
      (groupRun [some "a", some "b"] [1, 0]).dropLast ∧
    (groupRun [some "a", some "b"] [1, 0]).getLast? =
      some (GEvent.ret (some "b")) :=
  c2_interrupt_all_before_return [some "a", some "b"] 1 [0] 0 (by decide)

/-- C3: when every registered actor index occurs in the arrival order
(`arrival` is a permutation of the registration indices), every actor's run
completion is observed strictly before the final return event: `Run`
returns only after every registered actor's run has returned. -/
theorem c3_run_returns_after_all_runs_return
    (errs : List (Option String)) (first : Nat) (rest : List Nat)
    (hperm : (first :: rest).Perm (List.range errs.length))
    (j : Nat) (hj : j < errs.length) :
    GEvent.complete j (errs.getD j none) ∈
      (groupRun errs (first :: rest)).dropLast := by
  have hjmem : j ∈ first :: rest := hperm.mem_iff.mpr (List.mem_range.mpr hj)
  simp only [groupRun]
  rw [dropLast_append_single]
  simp only [List.mem_append, List.mem_map, List.mem_range,
    List.mem_singleton]
  rcases List.mem_cons.mp hjmem with h | h
  · subst h
    exact Or.inl (Or.inl (Or.inr rfl))
  · exact Or.inr ⟨j, h, rfl⟩

/-- Witness for C3: in a two-actor group with arrival order [1, 0], both
actors' completions precede the return. -/
theorem c3_witness :
    GEvent.complete 0 (some "a") ∈
      (groupRun [some "a", some "b"] [1, 0]).dropLast :=
  c3_run_returns_after_all_runs_return [some "a", some "b"] 1 [0]
    (by decide) 0 (by decide)

/-- C4 (code bug): at a concrete valid configuration, the exit-code mapping
and the single error log line do hold (`some` error gives one error log and
exit code 1; `none` gives exit code 0), but in both cases `main` exits via
`os.Exit`, which terminates the process without running the registered
deferred cleanup: no `tr.Close` or final log event ever occurs on either
exit path, contradicting the claim that exit happens only after deferred
cleanup has executed. -/
theorem c4_exit_skips_deferred_cleanup :
    processExitCode (mainTrace validOptions (some "bind: already in use")) = 1 ∧
    countErrorLogs (mainTrace validOptions (some "bind: already in use")) = 1 ∧
    processExitCode (mainTrace validOptions none) = 0 ∧
    countErrorLogs (mainTrace validOptions none) = 0 ∧
    MainEvent.deferredRun "tr.Close" ∉ mainTrace validOptions none ∧
    MainEvent.deferredRun "log exiting" ∉ mainTrace validOptions none ∧
    MainEvent.deferredRun "tr.Close" ∉
      mainTrace validOptions (some "bind: already in use") ∧
    MainEvent.deferredRun "log exiting" ∉
      mainTrace validOptions (some "bind: already in use") := by
  decide

/-- C5 (code bug): for each kind of invalid configuration (invalid
`--metrics.query.endpoint`, invalid `--metrics.write.endpoint`, invalid
`--grace-period`), the failure is surfaced as an error log before the core
starts (the server is never constructed and `Run` is never called), but
`main` then returns normally, so the process exit status is 0, not the
claimed 1. -/
theorem c5_config_error_exit_code_zero :
    (MainEvent.errorLog "--metrics.query.endpoint is invalid" ∈
        mainTrace invalidQueryOptions none ∧
      MainEvent.constructServer ∉ mainTrace invalidQueryOptions none ∧
      MainEvent.callRun ∉ mainTrace invalidQueryOptions none ∧
      processExitCode (mainTrace invalidQueryOptions none) = 0) ∧
    (MainEvent.errorLog "--metrics.write.endpoint is invalid" ∈
        mainTrace invalidWriteOptions none ∧
      MainEvent.constructServer ∉ mainTrace invalidWriteOptions none ∧
      MainEvent.callRun ∉ mainTrace invalidWriteOptions none ∧
      processExitCode (mainTrace invalidWriteOptions none) = 0) ∧
    (MainEvent.errorLog "--grace-period is invalid" ∈
        mainTrace invalidGraceOptions none ∧
      MainEvent.constructServer ∉ mainTrace invalidGraceOptions none ∧
      MainEvent.callRun ∉ mainTrace invalidGraceOptions none ∧
      processExitCode (mainTrace invalidGraceOptions none) = 0) := by
  decide

/-- C6 counterexample: the signal-watcher actor's interrupt is not
idempotent.  Starting from the watcher's fresh channel, a first interrupt
call succeeds (closing the channel) and a second interrupt call panics with
close-of-closed-channel, so calling interrupt multiple times does cause a
panic, contrary to the claim. -/
theorem c6_counterexample_second_interrupt_panics :
    signalWatcherInterrupt { buf := [], isClosed := false } =
      .ok { buf := [], isClosed := true } ∧
    signalWatcherInterrupt { buf := [], isClosed := true } =
      .error GoPanic.closeOfClosedChannel :=
  ⟨rfl, rfl⟩

/-- C6 amended: the signal-watcher's interrupt is safe as the program uses
it — a first interrupt call on a not-yet-closed channel never panics, and
the orchestrator's `Run` calls each registered actor's interrupt exactly
once — but a second call panics (close of a closed channel), so interrupt
is not idempotent. -/
theorem c6_amended_single_interrupt_no_panic
    (c : SigChan) (h : c.isClosed = false)
    (c2 : SigChan) (h2 : c2.isClosed = true)
    (errs : List (Option String)) (first : Nat) (rest : List Nat)
    (j : Nat) (hj : j < errs.length) :
    signalWatcherInterrupt c = .ok { c with isClosed := true } ∧
    signalWatcherInterrupt c2 = .error GoPanic.closeOfClosedChannel ∧
    (groupRun errs (first :: rest)).countP (isInterruptOf j) = 1 := by
  refine ⟨?_, ?_, groupRun_interrupt_count errs first rest j hj⟩
  · simp [signalWatcherInterrupt, chanClose, h]
  · simp [signalWatcherInterrupt, chanClose, h2]

/-- Witness for the amended C6 at a concrete channel and one-actor group. -/
theorem c6_witness :
    signalWatcherInterrupt { buf := [], isClosed := false } =
      .ok { buf := ([] : List GoSignal), isClosed := true } ∧
    signalWatcherInterrupt { buf := ([] : List GoSignal), isClosed := true } =
      .error GoPanic.closeOfClosedChannel ∧
    (groupRun [some "a"] [0]).countP (isInterruptOf 0) = 1 := by
  have h := c6_amended_single_interrupt_no_panic ⟨[], false⟩ rfl ⟨[], true⟩ rfl
    [some "a"] 0 [] 0 (by decide)
  exact h

/-- C7: the signal watcher's channel is created with buffer capacity 1
(which is at least 1) strictly before the OS-signal subscription is
registered on it, and the subscription covers exactly SIGINT
(`os.Interrupt`) and SIGTERM. -/
theorem c7_signal_channel_buffered_before_notify :
    signalWatcherSetup.get? 0 = some (SigSetupOp.mkChan 1) ∧
    (∃ cap, signalWatcherSetup.get? 0 = some (SigSetupOp.mkChan cap) ∧
      1 ≤ cap) ∧
    signalWatcherSetup.get? 1 =
      some (SigSetupOp.notify [GoSignal.SIGINT, GoSignal.SIGTERM]) ∧
    (∀ s : GoSignal,
      s ∈ [GoSignal.SIGINT, GoSignal.SIGTERM] ↔
        s = GoSignal.SIGINT ∨ s = GoSignal.SIGTERM) := by
  refine ⟨rfl, ⟨1, rfl, le_refl 1⟩, rfl, ?_⟩
  intro s
  cases s <;> decide

/-- C8: the signal watcher's run blocks exactly while no signal is pending
and it has not been interrupted, and it returns success (a `nil` error) when
a signal arrives. -/
theorem c8_signal_watcher_blocks_then_returns_nil (c : SigChan) :
    (signalWatcherRunStep c = none ↔ c.buf = [] ∧ c.isClosed = false) ∧
    (∀ s rest, c.buf = s :: rest → signalWatcherRunStep c = some none) := by
  obtain ⟨buf, closed⟩ := c
  constructor
  · cases buf <;> cases closed <;>
      simp [signalWatcherRunStep, chanRecv]
  · intro s rest h
    cases buf with
    | nil => cases h
    | cons a l => simp [signalWatcherRunStep, chanRecv]

/-- Witness for C8: an empty open channel blocks; a pending SIGINT makes
run return `nil`. -/
theorem c8_witness :
    signalWatcherRunStep { buf := [], isClosed := false } = none ∧
    signalWatcherRunStep { buf := [GoSignal.SIGINT], isClosed := false } =
      some none :=
  ⟨(c8_signal_watcher_blocks_then_returns_nil ⟨[], false⟩).1.mpr ⟨rfl, rfl⟩,
   (c8_signal_watcher_blocks_then_returns_nil
      ⟨[GoSignal.SIGINT], false⟩).2 GoSignal.SIGINT [] rfl⟩

/-- C9: when the watcher is interrupted (its channel closed) rather than
receiving a real signal, run also returns a `nil` error; more generally any
value run returns is `nil`, so a completion of the signal watcher never
contributes a non-nil error to the Outcome, whichever way it was
unblocked. -/
theorem c9_interrupted_run_returns_nil (c : SigChan) :
    (c.isClosed = true → c.buf = [] → signalWatcherRunStep c = some none) ∧
    (∀ r, signalWatcherRunStep c = some r → r = none) ∧
    (∀ (errs : List (Option String)) (i : Nat) (rest : List Nat),
      errs.getD i none = none → groupOutcome errs (i :: rest) = none) := by
  refine ⟨?_, ?_, ?_⟩
  · intro hclosed hbuf
    obtain ⟨buf, closed⟩ := c
    simp only at hclosed hbuf
    subst hclosed; subst hbuf
    simp [signalWatcherRunStep, chanRecv]
  · intro r hr
    unfold signalWatcherRunStep at hr
    cases hrec : chanRecv c with
    | none => rw [hrec] at hr; cases hr
    | some v => rw [hrec] at hr; cases hr; rfl
  · intro errs i rest h
    simpa [groupOutcome] using h

/-- Witness for C9: a closed empty channel (interrupt happened, no real
signal) makes run return `nil`, and a first-completing actor with a `nil`
run error yields a `nil` Outcome. -/
theorem c9_witness :
    signalWatcherRunStep { buf := [], isClosed := true } = some none ∧
    groupOutcome [none, some "x"] [0, 1] = none :=
  ⟨(c9_interrupted_run_returns_nil ⟨[], true⟩).1 rfl rfl,
   (c9_interrupted_run_returns_nil ⟨[], true⟩).2.2 [none, some "x"] 0 [1] rfl⟩

/-- C10: with the flag defaults (for any values of the defaults imported
from outside `src/`, and whatever error the orchestrator would have
produced), both metrics endpoints default to the empty string; the empty
string fails `url.ParseRequestURI`; `main` logs the query-endpoint
validation error and returns after running the deferred cleanup, without
ever constructing the server actor or calling the orchestrator's `Run` —
the endpoints are effectively mandatory despite having defaults. -/
theorem c10_default_endpoints_fail_validation
    (proxyBufCnt proxyBufSz : Int) (logFmt exporter : String)
    (outcomeErr : Option String) :
    (defaultOptions proxyBufCnt proxyBufSz logFmt exporter).metricsQueryEndpoint
        = "" ∧
    (defaultOptions proxyBufCnt proxyBufSz logFmt exporter).metricsWriteEndpoint
        = "" ∧
    parseRequestURI "" = .error "empty url" ∧
    mainTrace (defaultOptions proxyBufCnt proxyBufSz logFmt exporter)
        outcomeErr =
      MainEvent.errorLog "--metrics.query.endpoint is invalid" ::
        deferredCleanup ∧
    MainEvent.constructServer ∉
      mainTrace (defaultOptions proxyBufCnt proxyBufSz logFmt exporter)
        outcomeErr ∧
    MainEvent.callRun ∉
      mainTrace (defaultOptions proxyBufCnt proxyBufSz logFmt exporter)
        outcomeErr := by
  refine ⟨rfl, rfl, rfl, rfl, ?_, ?_⟩ <;>
    · rw [show mainTrace (defaultOptions proxyBufCnt proxyBufSz logFmt
          exporter) outcomeErr =
        MainEvent.errorLog "--metrics.query.endpoint is invalid" ::
          deferredCleanup from rfl]
      decide
